import Mathlib

/-!
# Verification of the ADGM Corporate Agent compliance pipeline

Shallow embedding of the repository's Python sources (`src/app.py`,
`src/streamlit_app.py`) together with spec-modelled definitions for the
compliance scorer, red-flag detector and retrieval-answer assembler whose
implementation modules (`src/document_processor.py`, `src/rag_system.py`,
`src/compliance_checker.py`, `src/red_flag_detector.py`) are not part of the
repository snapshot (only their callers are).

Conventions of the embedding:
* Python floats are modelled as rationals (`ℚ`); all arithmetic in the
  relevant code paths is sums, counts and one division, so no floating-point
  behaviour is load-bearing.
* Python dicts that are used with insertion-order iteration
  (`current_session['documents']`, `current_session['compliance_reports']`)
  are modelled as association lists with Python-dict insert semantics:
  overwrite in place when the key exists, append otherwise.
* Python exceptions are modelled with `Except String`; a `try/except` block
  becomes a `match` on the `Except` value.
* f-string presentation formatting (`:.2f` rendering etc.) is not modelled;
  the numbers that are interpolated into the UI strings are exposed as fields
  of structured output records instead.  Literal early-return strings
  (`"No files uploaded"` etc.) are kept verbatim.
-/

namespace ADGM

/-! ## Association lists with Python-dict insert semantics -/

/-- Python dict assignment `d[k] = v` on an insertion-ordered Python dict: overwrite the existing
entry in place, or append a fresh one. -/
def insertAssoc {α : Type} : List (String × α) → String → α → List (String × α)
  | [], k, v => [(k, v)]
  | p :: rest, k, v =>
      if p.1 = k then (p.1, v) :: rest else p :: insertAssoc rest k v

/-- Python dict `d.get(k)` / `d[k]` lookup (first matching key). -/
def lookupAssoc {α : Type} : List (String × α) → String → Option α
  | [], _ => none
  | p :: rest, k => if p.1 = k then some p.2 else lookupAssoc rest k

/-- The ordered key list of a dict. -/
def keysA {α : Type} (m : List (String × α)) : List String := m.map Prod.fst

/-- Well-formedness of a dict model: no duplicate keys.  Every dict reachable
from an empty dict through `insertAssoc` satisfies this. -/
def NodupKeysA {α : Type} (m : List (String × α)) : Prop := (keysA m).Nodup

/-! ## Data model (from `src/app.py` usage of `document_processor` results) -/

/-- The `DocumentMetadata` record as consumed by `src/app.py` (fields `filename`,
`document_type`, `confidence_score`, `word_count`). -/
structure DocumentMetadata where
  filename : String
  document_type : String
  confidence_score : ℚ
  word_count : ℕ
deriving DecidableEq, Repr

/-- A classified document section as consumed by `src/app.py`
(`section.title`, `section.compliance_status`, `section.legal_importance`)
and, in the spec's data model, carrying body text and a position index. -/
structure DocSection where
  title : String
  text : String
  position : ℕ
  legal_importance : String
  compliance_status : String
deriving DecidableEq, Repr

/-- The `analysis` dict returned by `process_document`, restricted to the two
keys `src/app.py` reads: `overall_compliance_score` (line 97) and
`critical_issues_count` (line 98). -/
structure Analysis where
  overall_compliance_score : ℚ
  critical_issues_count : ℕ
deriving DecidableEq, Repr

/-- One entry of `current_session['documents']` (`src/app.py` lines 89-94). -/
structure DocData where
  metadata : DocumentMetadata
  sections : List DocSection
  analysis : Analysis
  file_path : String
deriving DecidableEq, Repr

/-- One entry of `current_session['compliance_reports']`
(`src/app.py` lines 101-104). -/
structure ComplianceEntry where
  compliance_score : ℚ
  issues_count : ℕ
deriving DecidableEq, Repr

/-- The `current_session` state created in `ADGMCorporateAgent.__init__`
(`src/app.py` lines 48-53). -/
structure Session where
  documents : List (String × DocData)
  analysis_results : List (String × Unit)
  compliance_reports : List (String × ComplianceEntry)
  session_id : String
deriving DecidableEq, Repr

/-- A fresh session as built by `__init__`: all three dicts empty. -/
def Session.init (sid : String) : Session :=
  { documents := [], analysis_results := [], compliance_reports := [], session_id := sid }

/-- The document processor collaborator:
`process_document(file_path) → (metadata, sections, analysis)`, raising on
unreadable input (`src/document_processor.py` is external to this snapshot;
only its call contract is needed here). -/
def DocProcessor : Type := String → Except String (DocumentMetadata × List DocSection × Analysis)

/-! ## `process_uploaded_documents` (`src/app.py` lines 71-168) -/

/-- One row of the `results` list accumulated by the processing loop
(`src/app.py` lines 112-118 on success, 122-129 on error; error rows carry
the `'error'` key, modelled as `error = some e`). -/
structure ResultRow where
  document : String
  type : String
  confidence : ℚ
  compliance_score : ℚ
  issues_count : ℕ
  error : Option String
deriving DecidableEq, Repr

/-- The loop state of `process_uploaded_documents`: the mutated session plus
the local accumulators initialised at lines 77-80. -/
structure BatchState where
  session : Session
  results : List ResultRow
  total_issues : ℕ
  total_compliance_score : ℚ
  processed_docs : ℕ
deriving Repr

/-- Python `os.path.basename`: the path component after the last `/`. -/
def basename (p : String) : String :=
  ⟨p.toList.foldl (fun acc c => if c = '/' then [] else acc ++ [c]) []⟩

/-- The doc id `f"doc_{n}"` (`src/app.py` line 88). -/
def docKey (n : ℕ) : String := "doc_" ++ toString n

/-- One iteration of the `for file_path in files` loop
(`src/app.py` lines 82-129). -/
def processFile (proc : DocProcessor) (st : BatchState) (file_path : String) : BatchState :=
  match proc file_path with
  | .ok (metadata, sections, analysis) =>
      let doc_id := docKey (st.processed_docs + 1)
      let compliance_score := analysis.overall_compliance_score
      let issues_count := analysis.critical_issues_count
      let docData : DocData :=
        ⟨metadata, sections, analysis, file_path⟩
      let repEntry : ComplianceEntry :=
        ⟨compliance_score, issues_count⟩
      let row : ResultRow :=
        ⟨metadata.filename, metadata.document_type, metadata.confidence_score,
          compliance_score, issues_count, none⟩
      let newSession : Session :=
        { st.session with
          documents := insertAssoc st.session.documents doc_id docData,
          compliance_reports := insertAssoc st.session.compliance_reports doc_id repEntry }
      { session := newSession,
        results := st.results ++ [row],
        total_issues := st.total_issues + issues_count,
        total_compliance_score := st.total_compliance_score + compliance_score,
        processed_docs := st.processed_docs + 1 }
  | .error e =>
      let row : ResultRow :=
        ⟨basename file_path, "Error", 0, 0, 0, some e⟩
      { st with results := st.results ++ [row] }

/-- The whole processing loop over one uploaded batch, starting from the
zeroed accumulators of lines 77-80. -/
def runBatch (proc : DocProcessor) (s : Session) (files : List String) : BatchState :=
  files.foldl (processFile proc)
    { session := s, results := [], total_issues := 0, total_compliance_score := 0,
      processed_docs := 0 }

/-- The numbers interpolated into the processing summary
(`src/app.py` lines 131-156). -/
structure SummaryData where
  processed_docs : ℕ
  avg_compliance : ℚ
  total_issues : ℕ
  session_id : String
  rows : List ResultRow
deriving Repr

/-- Lines 131-143: `avg_compliance = total / processed if processed > 0 else 0`. -/
def summaryData (st : BatchState) : SummaryData :=
  { processed_docs := st.processed_docs,
    avg_compliance :=
      if st.processed_docs > 0 then st.total_compliance_score / st.processed_docs else 0,
    total_issues := st.total_issues,
    session_id := st.session.session_id,
    rows := st.results }

/-! ## `_generate_recommendations` (`src/app.py` lines 205-252) -/

/-- Line 237: the document types stored in the session, in dict order. -/
def docTypes (s : Session) : List String :=
  s.documents.map (fun kv => kv.2.metadata.document_type)

/-- Line 238: `required_docs`. -/
def required_docs : List String :=
  ["Articles of Association", "Memorandum of Association", "UBO Declaration Form"]

/-- Line 239: `missing_docs = [doc for doc in required_docs if doc not in doc_types]`. -/
def missingDocs (s : Session) : List String :=
  required_docs.filter (fun d => decide (d ∉ docTypes s))

/-- The numbers and lists interpolated into the recommendations text
(`src/app.py` lines 210-252). -/
structure RecsData where
  total_issues : ℕ
  avg_compliance : ℚ
  missing_docs : List String
deriving DecidableEq, Repr

/-- Outcome of `_generate_recommendations`: the early return
`"No documents processed yet."` (line 208) or the computed recommendation
data. -/
inductive RecsOut where
  | noDocs
  | recs (d : RecsData)
deriving DecidableEq, Repr

/-- Lines 216-219: iterate over `documents` in dict order and index
`compliance_reports[doc_id]`; a missing report key raises `KeyError`. -/
def collectReports (reports : List (String × ComplianceEntry)) :
    List (String × DocData) → Except String (List ComplianceEntry)
  | [] => .ok []
  | kv :: rest =>
      match lookupAssoc reports kv.1 with
      | some rep => (collectReports reports rest).map (rep :: ·)
      | none => .error ("KeyError: " ++ kv.1)

/-- The method `_generate_recommendations` (`src/app.py` lines 205-252), with the
markdown rendering reduced to the interpolated data.  Raises (as the Python
does, via `KeyError` at line 217) when a stored document has no stored
compliance report. -/
def generateRecommendations (s : Session) : Except String RecsOut :=
  if s.documents.isEmpty then .ok .noDocs
  else
    (collectReports s.compliance_reports s.documents).map fun reports =>
      let all_compliance_scores := reports.map (·.compliance_score)
      let total_issues := (reports.map (·.issues_count)).sum
      let avg_compliance :=
        if all_compliance_scores.isEmpty then 0
        else all_compliance_scores.sum / all_compliance_scores.length
      .recs { total_issues := total_issues, avg_compliance := avg_compliance,
              missing_docs := missingDocs s }

/-! ## `process_uploaded_documents` top level (`src/app.py` lines 71-168) -/

/-- The returned triple of `process_uploaded_documents`: either one of the
literal early/error returns (lines 75 and 168, both a plain string triple)
or the structured summary/recommendations of a completed run (the
detailed-analysis string of line 159 is presentation-only rendering of the
session and is not modelled). -/
inductive ProcOut where
  | message (summary detailed recommendations : String)
  | report (summary : SummaryData) (recommendations : RecsOut)
deriving Repr

/-- The method `process_uploaded_documents(files)` as a state transformer on the session
(the method mutates `self.current_session`); returns the UI output together
with the session after the call.  The `try/except` at lines 73/166 catches
the `KeyError` that `_generate_recommendations` can raise; the session
mutations performed before the exception persist. -/
def processUploadedDocuments (proc : DocProcessor) (s : Session) (files : List String) :
    ProcOut × Session :=
  if files.isEmpty then (.message "No files uploaded" "" "", s)
  else
    let st := runBatch proc s files
    match generateRecommendations st.session with
    | .ok r => (.report (summaryData st) r, st.session)
    | .error e => (.message ("Error processing documents: " ++ e) "" "", st.session)

/-! ## `ADGMCorporateAgent` object state (`src/app.py` lines 35-69) -/

/-- The net effect of an `AnalyticsEngine` (module `src/analytics_engine.py`
is external to this snapshot): `generate_analytics_dashboard` and
`generate_insights` applied to a session and rendered to the two output
strings (`src/app.py` lines 300-347). -/
def AnalyticsEngine : Type := Session → String × String

/-- The net effect of an `ExportManager` (module `src/export_manager.py` is
external to this snapshot): `export_processed_documents(session, format)`
returning `(file_path, message)` (`src/app.py` lines 360-362). -/
def ExportManager : Type := Session → String → String × String

/-- The attribute state of an `ADGMCorporateAgent` instance.  Python objects
have no fixed field set, so the attributes that `__init__` never assigns but
other methods read (`analytics_engine`, `export_manager`) are modelled as
`Option` fields; `none` means the attribute does not exist and reading it
raises `AttributeError`. -/
structure ADGMCorporateAgent where
  document_processor : DocProcessor
  current_session : Session
  analytics_engine : Option AnalyticsEngine
  export_manager : Option ExportManager

/-- The constructor `ADGMCorporateAgent.__init__` (`src/app.py` lines 38-65): assigns only
`document_processor`, `rag_system` and `current_session` (plus the constant
`supported_document_types` table); it never assigns `analytics_engine` or
`export_manager`, so those attributes are absent (`none`). -/
def ADGMCorporateAgent.init (proc : DocProcessor) (sid : String) : ADGMCorporateAgent :=
  { document_processor := proc,
    current_session := Session.init sid,
    analytics_engine := none,
    export_manager := none }

/-- The call `process_uploaded_documents` as a method: mutates `self.current_session`
and leaves every other attribute of the object untouched. -/
def ADGMCorporateAgent.processBatch (a : ADGMCorporateAgent) (files : List String) :
    ProcOut × ADGMCorporateAgent :=
  ((processUploadedDocuments a.document_processor a.current_session files).1,
    { a with
      current_session := (processUploadedDocuments a.document_processor a.current_session files).2 })

/-- The agent after `__init__` followed by a sequence of
`process_uploaded_documents` calls (one per batch of files). -/
def ADGMCorporateAgent.afterBatches (proc : DocProcessor) (sid : String)
    (batches : List (List String)) : ADGMCorporateAgent :=
  batches.foldl (fun a fs => (a.processBatch fs).2) (ADGMCorporateAgent.init proc sid)

/-- The `str(e)` of the `AttributeError` Python raises when a method reads a
never-assigned attribute of the agent. -/
def attributeError (attr : String) : String :=
  "'ADGMCorporateAgent' object has no attribute '" ++ attr ++ "'"

/-- The method `generate_analytics_dashboard` (`src/app.py` lines 293-351): early return
when no documents; otherwise reads `self.analytics_engine` (line 300), whose
`AttributeError` is caught at line 349 and turned into the error tuple. -/
def ADGMCorporateAgent.generateAnalyticsDashboard (a : ADGMCorporateAgent) :
    String × String :=
  if a.current_session.documents.isEmpty then ("No documents processed yet.", "")
  else
    match a.analytics_engine with
    | some engine => engine a.current_session
    | none => ("Error generating analytics: " ++ attributeError "analytics_engine", "")

/-- The method `export_results` (`src/app.py` lines 353-368): early return when no
documents; otherwise reads `self.export_manager` (line 360), whose
`AttributeError` is caught at line 366 and turned into the error tuple. -/
def ADGMCorporateAgent.exportResults (a : ADGMCorporateAgent) (export_format : String) :
    String × String :=
  if a.current_session.documents.isEmpty then ("", "No documents to export")
  else
    match a.export_manager with
    | some mgr => mgr a.current_session export_format
    | none => ("", "Export failed: " ++ attributeError "export_manager")

/-! ## `ask_adgm_question` (`src/app.py` lines 254-291) and the
retrieval-answer assembler -/

/-- One retrieved context chunk, per the collaborator contract of spec §6:
`retrieve(query_text, top_k) → ordered sequence of
(chunk_text, similarity_score, source_identifier)`. -/
structure ContextChunk where
  text : String
  similarity_score : ℚ
  source : String
deriving DecidableEq, Repr

/-- One entry of `RAGResponse.sources` as read by the UI layers
(`src/app.py` line 284, `src/streamlit_app.py` lines 321-324). -/
structure SourceRef where
  source : String
  relevance_score : ℚ
  sectionName : String
  adgm_reference : String
deriving DecidableEq, Repr

/-- The `RAGResponse` record as read by the UI layers (`src/app.py` lines
273-284, `src/streamlit_app.py` lines 294-324). -/
structure RAGResponse where
  answer : String
  confidence_score : ℚ
  adgm_references : List String
  related_topics : List String
  follow_up_questions : List String
  sources : List SourceRef
deriving DecidableEq, Repr

/-- Modelled from the spec: the Retrieval-Answer Assembler of
`src/rag_system.py` is not part of the repository snapshot (only its callers
in `src/app.py` and `src/streamlit_app.py` are).  Per spec §4.5:
`assemble(question, ranked_context_chunks) → Answer`; confidence is derived
from the top-ranked chunk's similarity score (a relative ranking signal);
with an empty ranked-context input it fails gracefully, returning a
"no information found" answer with confidence `0` and no references. -/
def assembleAnswer (question : String) (chunks : List ContextChunk) : RAGResponse :=
  match chunks with
  | [] =>
      { answer := "No information found in the ADGM knowledge base for: " ++ question,
        confidence_score := 0,
        adgm_references := [],
        related_topics := [],
        follow_up_questions := [],
        sources := [] }
  | top :: rest =>
      { answer := "Based on the ADGM knowledge base: " ++ top.text,
        confidence_score :=
          min 1 (top.similarity_score * (1 + (rest.length : ℚ) / 10)),
        adgm_references := (top :: rest).map (·.source),
        related_topics := rest.map (·.source),
        follow_up_questions := [],
        sources := (top :: rest).map fun c =>
          ⟨c.source, c.similarity_score, "", c.source⟩ }

/-- The test `not question.strip()` of `src/app.py` line 257: true exactly
when the question consists solely of whitespace. -/
def isBlank (s : String) : Bool := s.toList.all Char.isWhitespace

/-- The method `ask_adgm_question` (`src/app.py` lines 254-291).  The retrieval and
generation collaborators are parameters; `generate` may raise
(`Except.error`), which the `try/except` at lines 256/289 converts into the
error string of line 291.  The formatted markdown of lines 270-285 is
abstracted to a rendering function of the response. -/
def askAdgmQuestion (retrieve : String → ℕ → List ContextChunk)
    (generate : String → List ContextChunk → Except String RAGResponse)
    (render : String → RAGResponse → String)
    (question : String) : String :=
  if isBlank question then
    "Please enter a question about ADGM compliance or regulations."
  else
    let context := retrieve question 5
    if context.isEmpty then
      "I couldn't find relevant information in the ADGM knowledge base. Please try rephrasing your question."
    else
      match generate question context with
      | .ok response => render question response
      | .error e => "Error processing question: " ++ e

/-! ## Compliance Scorer (spec §4.2)

Modelled from the spec: the Compliance Scorer lives in
`src/document_processor.py` / `src/compliance_checker.py`, which are not part
of the repository snapshot (only their callers in `src/app.py` and
`src/streamlit_app.py` are).  The definitions below follow §4.2's words:
per-rule evaluation `Unchecked → {Satisfied, Violated, NotApplicable}`,
case-insensitive containment of the required pattern in the concatenated
section text, score = Satisfied / (Satisfied + Violated) with the empty
denominator defined as `1.0`, and a `critical_issues_count` incremented once
per Critical-severity violated rule. -/

/-- Severity of a rule violation or red flag (spec §3). -/
inductive Severity where
  | critical
  | high
  | medium
  | low
deriving DecidableEq, Repr

/-- Outcome of evaluating one rule against one document (spec §4.2). -/
inductive RuleStatus where
  | satisfied
  | violated
  | notApplicable
deriving DecidableEq, Repr

/-- A Rule Catalog entry (spec §3): applicable document types, a
required-pattern predicate (matched by case-insensitive containment),
a severity if violated, and remediation text. -/
structure Rule where
  id : String
  doc_types : List String
  pattern : String
  severity : Severity
  remediation : String
deriving DecidableEq, Repr

/-- Case-insensitive substring containment over character lists. -/
def containsCI (text pattern : String) : Bool :=
  let rec go (t : List Char) (p : List Char) : Bool :=
    match t with
    | [] => p.isEmpty
    | _ :: t' => p.isPrefixOf t || go t' p
  go text.toLower.toList pattern.toLower.toList

/-- Modelled from the spec (§4.2): evaluate one rule.  `NotApplicable` when
the rule's document types do not include this document's type; otherwise the
predicate is a case-insensitive containment check of the required pattern in
the concatenated section text. -/
def evalRule (document_type : String) (text : String) (r : Rule) : RuleStatus :=
  if document_type ∈ r.doc_types then
    if containsCI text r.pattern then .satisfied else .violated
  else .notApplicable

/-- Tallies accumulated over one pass through the Rule Catalog. -/
structure ScoreTally where
  satisfied : ℕ
  violated : ℕ
  critical_issues_count : ℕ
  violated_rules : List String
deriving DecidableEq, Repr

/-- Modelled from the spec (§4.2): processing one rule of the catalog —
tally a satisfied or violated rule, record the violated rule id, and
increment `critical_issues_count` once when a Critical-severity rule is
violated. -/
def scoreStep (document_type : String) (text : String) (acc : ScoreTally) (r : Rule) :
    ScoreTally :=
  match evalRule document_type text r with
  | .satisfied => { acc with satisfied := acc.satisfied + 1 }
  | .violated =>
      { acc with
        violated := acc.violated + 1,
        critical_issues_count :=
          if r.severity = .critical then acc.critical_issues_count + 1
          else acc.critical_issues_count,
        violated_rules := acc.violated_rules ++ [r.id] }
  | .notApplicable => acc

/-- Modelled from the spec (§4.2): a single left-to-right pass over the Rule
Catalog starting from zeroed tallies. -/
def checkCompliance (document_type : String) (text : String) (rules : List Rule) :
    ScoreTally :=
  rules.foldl (scoreStep document_type text) ⟨0, 0, 0, []⟩

/-- Modelled from the spec (§4.2): overall score =
Satisfied / (Satisfied + Violated), defined as `1.0` when no applicable rule
exists (division-by-zero guard). -/
def overallScore (t : ScoreTally) : ℚ :=
  if t.satisfied + t.violated = 0 then 1
  else (t.satisfied : ℚ) / ((t.satisfied : ℚ) + (t.violated : ℚ))

/-! ## Red-Flag Detector (spec §4.3)

Modelled from the spec: `src/red_flag_detector.py` is not part of the
repository snapshot (only its caller in `src/streamlit_app.py` lines 185-188
is).  Per §4.3, `detect(document_type, classified_sections)` evaluates five
independent detection categories and returns the findings ordered by
descending severity, then by ascending section position. -/

/-- A red-flag finding (spec §3): severity, description, location
(section position index; `0` for document-level findings), suggestion. -/
structure RedFlag where
  severity : Severity
  description : String
  location : ℕ
  suggestion : String
deriving DecidableEq, Repr

/-- Numeric severity rank used for ordering: Critical > High > Medium > Low. -/
def Severity.rank : Severity → ℕ
  | .critical => 3
  | .high => 2
  | .medium => 1
  | .low => 0

/-- The output order of `detect` (spec §4.3): descending severity first,
ascending section position within equal severity. -/
def flagLE (a b : RedFlag) : Prop :=
  b.severity.rank < a.severity.rank ∨
    (a.severity.rank = b.severity.rank ∧ a.location ≤ b.location)

instance : DecidableRel flagLE := fun a b => by
  unfold flagLE; infer_instance

instance : IsTotal RedFlag flagLE where
  total a b := by
    unfold flagLE
    rcases Nat.lt_trichotomy a.severity.rank b.severity.rank with h | h | h
    · exact Or.inr (Or.inl h)
    · rcases Nat.le_total a.location b.location with h' | h'
      · exact Or.inl (Or.inr ⟨h, h'⟩)
      · exact Or.inr (Or.inr ⟨h.symm, h'⟩)
    · exact Or.inl (Or.inl h)

instance : IsTrans RedFlag flagLE where
  trans a b c hab hbc := by
    unfold flagLE at *
    rcases hab with h1 | ⟨h1, h1'⟩ <;> rcases hbc with h2 | ⟨h2, h2'⟩
    · exact Or.inl (Nat.lt_trans h2 h1)
    · exact Or.inl (h2 ▸ h1)
    · exact Or.inl (h1 ▸ h2)
    · exact Or.inr ⟨h1.trans h2, h1'.trans h2'⟩

/-- Hedging phrases indicating non-binding language (spec §4.3). -/
def hedgingPhrases : List String := ["may", "at its discretion", "if applicable"]

/-- Foreign court systems competing with the regulator's courts (spec §4.3). -/
def foreignCourts : List String := ["UAE Federal Courts", "Dubai Courts", "DIFC Courts"]

/-- Required beneficial-owner fields for UBO documents (spec §4.3). -/
def uboRequiredFields : List String := ["name", "percentage", "nationality"]

/-- Section titles mandated per document type (a small data-driven catalog in
the spirit of spec §9's pattern tables). -/
def requiredSectionTitles (document_type : String) : List String :=
  if document_type = "Articles of Association" then
    ["Jurisdiction", "Share Capital", "Registered Office"]
  else if document_type = "Memorandum of Association" then
    ["Objects of the Company", "Registered Office"]
  else []

/-- Modelled from the spec (§4.3): jurisdiction-mismatch findings — a section
referencing a competing foreign court system without the regulator's courts
is Critical. -/
def jurisdictionFlags (sections : List DocSection) : List RedFlag :=
  sections.filterMap fun sec =>
    if (foreignCourts.any fun c => containsCI sec.text c) &&
        !(containsCI sec.text "ADGM Courts") then
      some ⟨.critical, "Jurisdiction mismatch: foreign court referenced", sec.position,
        "Replace the jurisdiction clause with one naming ADGM Courts"⟩
    else none

/-- Modelled from the spec (§4.3): ambiguous/non-binding language inside
Critical-importance sections is Medium. -/
def ambiguityFlags (sections : List DocSection) : List RedFlag :=
  sections.filterMap fun sec =>
    if sec.legal_importance = "Critical" &&
        (hedgingPhrases.any fun p => containsCI sec.text p) then
      some ⟨.medium, "Ambiguous or non-binding language in a critical section",
        sec.position, "Replace hedging language with binding obligations"⟩
    else none

/-- Modelled from the spec (§4.3): a mandated section type absent from the
document entirely is High, reported at document level (position 0). -/
def missingSectionFlags (document_type : String) (sections : List DocSection) :
    List RedFlag :=
  (requiredSectionTitles document_type).filterMap fun title =>
    if sections.any fun sec => containsCI sec.title title then none
    else some ⟨.high, "Missing required section: " ++ title, 0,
      "Add the mandated section " ++ title⟩

/-- Modelled from the spec (§4.3): for UBO-type documents, a beneficial-owner
section missing a required field is Critical. -/
def uboFlags (document_type : String) (sections : List DocSection) : List RedFlag :=
  if document_type = "UBO Declaration Form" then
    sections.filterMap fun sec =>
      if containsCI sec.text "beneficial owner" &&
          (uboRequiredFields.any fun f => !(containsCI sec.text f)) then
        some ⟨.critical, "Incomplete ownership disclosure", sec.position,
          "Complete all beneficial-owner fields (name, percentage, nationality)"⟩
      else none
  else []

/-- Modelled from the spec (§4.3): absence of any recognizable
signature/execution section is High, reported at document level. -/
def signatureFlags (sections : List DocSection) : List RedFlag :=
  if sections.any fun sec =>
      containsCI sec.text "signature" || containsCI sec.title "signature" then []
  else [⟨.high, "Missing signature/execution block", 0,
    "Add a signature, date and witness block"⟩]

/-- The raw findings of the five independent category detectors (spec §4.3),
concatenated before ordering. -/
def rawFlags (document_type : String) (sections : List DocSection) : List RedFlag :=
  jurisdictionFlags sections ++ ambiguityFlags sections ++
    missingSectionFlags document_type sections ++ uboFlags document_type sections ++
    signatureFlags sections

/-- Modelled from the spec (§4.3): `detect(document_type, classified_sections)`
returns the category findings ordered by descending severity, then ascending
section position (a stable, deterministic order). -/
def detectRedFlags (document_type : String) (sections : List DocSection) :
    List RedFlag :=
  (rawFlags document_type sections).insertionSort flagLE

/-! ## Lemmas about the dict model -/

theorem lookupAssoc_insertAssoc_self {α : Type} (m : List (String × α)) (k : String) (v : α) :
    lookupAssoc (insertAssoc m k v) k = some v := by
  induction m with
  | nil => simp [insertAssoc, lookupAssoc]
  | cons p rest ih =>
      by_cases h : p.1 = k
      · simp [insertAssoc, lookupAssoc, h]
      · simp [insertAssoc, lookupAssoc, h, ih]

theorem lookupAssoc_insertAssoc_ne {α : Type} (m : List (String × α)) (k k' : String) (v : α)
    (h : k' ≠ k) : lookupAssoc (insertAssoc m k v) k' = lookupAssoc m k' := by
  induction m with
  | nil =>
      have : ¬k = k' := fun h' => h h'.symm
      simp [insertAssoc, lookupAssoc, this]
  | cons p rest ih =>
      by_cases hp : p.1 = k
      · have hp' : ¬p.1 = k' := fun hc => h ((hp ▸ hc).symm ▸ rfl)
        have hk' : ¬k = k' := fun h' => h h'.symm
        simp [insertAssoc, hp, lookupAssoc, hp', hk']
      · by_cases hp' : p.1 = k'
        · have hk' : ¬k' = k := fun h' => h h'
          simp [insertAssoc, hp, lookupAssoc, hp', hk']
        · simp [insertAssoc, hp, lookupAssoc, hp', ih]

theorem lookupAssoc_eq_none_of_not_mem {α : Type} (m : List (String × α)) (k : String)
    (h : k ∉ keysA m) : lookupAssoc m k = none := by
  induction m with
  | nil => rfl
  | cons p rest ih =>
      simp only [keysA, List.map_cons, List.mem_cons] at h
      push_neg at h
      have h1 : ¬p.1 = k := fun h' => h.1 h'.symm
      simp only [lookupAssoc, if_neg h1]
      exact ih (by simpa [keysA] using h.2)

theorem keysA_insertAssoc_of_mem {α : Type} (m : List (String × α)) (k : String) (v : α)
    (h : k ∈ keysA m) : keysA (insertAssoc m k v) = keysA m := by
  induction m with
  | nil => simp [keysA] at h
  | cons p rest ih =>
      by_cases hp : p.1 = k
      · simp [insertAssoc, hp, keysA]
      · have hk : k ∈ keysA rest := by
          simp only [keysA, List.map_cons, List.mem_cons] at h
          rcases h with h | h
          · exact absurd h.symm hp
          · simpa [keysA] using h
        have := ih hk
        simp only [keysA, List.map_cons] at this ⊢
        simp [insertAssoc, hp, this]

theorem keysA_insertAssoc_of_not_mem {α : Type} (m : List (String × α)) (k : String) (v : α)
    (h : k ∉ keysA m) : keysA (insertAssoc m k v) = keysA m ++ [k] := by
  induction m with
  | nil => simp [insertAssoc, keysA]
  | cons p rest ih =>
      simp only [keysA, List.map_cons, List.mem_cons] at h
      push_neg at h
      have h1 : ¬p.1 = k := fun h' => h.1 h'.symm
      have := ih (by simpa [keysA] using h.2)
      simp only [keysA, List.map_cons] at this ⊢
      simp [insertAssoc, h1, this]

theorem mem_keysA_insertAssoc_self {α : Type} (m : List (String × α)) (k : String) (v : α) :
    k ∈ keysA (insertAssoc m k v) := by
  by_cases h : k ∈ keysA m
  · rw [keysA_insertAssoc_of_mem m k v h]; exact h
  · rw [keysA_insertAssoc_of_not_mem m k v h]; simp

theorem mem_keysA_insertAssoc_of_mem {α : Type} (m : List (String × α)) (k k' : String)
    (v : α) (h : k' ∈ keysA m) : k' ∈ keysA (insertAssoc m k v) := by
  by_cases hk : k ∈ keysA m
  · rw [keysA_insertAssoc_of_mem m k v hk]; exact h
  · rw [keysA_insertAssoc_of_not_mem m k v hk]; exact List.mem_append_left _ h

theorem nodupKeysA_insertAssoc {α : Type} (m : List (String × α)) (k : String) (v : α)
    (h : NodupKeysA m) : NodupKeysA (insertAssoc m k v) := by
  by_cases hk : k ∈ keysA m
  · unfold NodupKeysA
    rw [keysA_insertAssoc_of_mem m k v hk]; exact h
  · unfold NodupKeysA
    rw [keysA_insertAssoc_of_not_mem m k v hk]
    rw [List.nodup_append]
    refine ⟨h, List.nodup_singleton k, ?_⟩
    intro x hx hx'
    simp only [List.mem_singleton] at hx'
    exact hk (hx' ▸ hx)

theorem mem_insertAssoc {α : Type} (m : List (String × α)) (k : String) (v : α)
    (kv : String × α) (h : kv ∈ insertAssoc m k v) : kv ∈ m ∨ kv = (k, v) := by
  induction m with
  | nil => simpa [insertAssoc] using h
  | cons p rest ih =>
      by_cases hp : p.1 = k
      · simp only [insertAssoc, if_pos hp, List.mem_cons] at h
        rcases h with h | h
        · exact Or.inr (by rw [h, hp])
        · exact Or.inl (List.mem_cons_of_mem _ h)
      · simp only [insertAssoc, if_neg hp, List.mem_cons] at h
        rcases h with h | h
        · exact Or.inl (h ▸ List.mem_cons_self _ _)
        · rcases ih h with h' | h'
          · exact Or.inl (List.mem_cons_of_mem _ h')
          · exact Or.inr h'

theorem nodupKeysA_cons {α : Type} (p : String × α) (rest : List (String × α))
    (h : NodupKeysA (p :: rest)) : p.1 ∉ keysA rest ∧ NodupKeysA rest := by
  unfold NodupKeysA keysA at h ⊢
  rw [List.map_cons, List.nodup_cons] at h
  exact h

/-- Extensionality for well-formed dicts: equal ordered key lists and equal
lookups force equal dicts. -/
theorem assoc_ext {α : Type} : ∀ (m m' : List (String × α)),
    NodupKeysA m → NodupKeysA m' → keysA m = keysA m' →
    (∀ k, lookupAssoc m k = lookupAssoc m' k) → m = m'
  | [], [], _, _, _, _ => rfl
  | [], (p :: _), _, _, hk, _ => by simp [keysA] at hk
  | (p :: _), [], _, _, hk, _ => by simp [keysA] at hk
  | (p :: rest), (p' :: rest'), hn, hn', hk, hl => by
      have hk' := hk
      simp only [keysA, List.map_cons, List.cons.injEq] at hk'
      obtain ⟨hk1, hk2⟩ := hk'
      have hv : p.2 = p'.2 := by
        have h := hl p.1
        rw [show lookupAssoc (p :: rest) p.1 = some p.2 by
              simp [lookupAssoc]] at h
        rw [show lookupAssoc (p' :: rest') p.1 = some p'.2 by
              simp [lookupAssoc, hk1.symm]] at h
        exact Option.some.inj h
      have hrest : rest = rest' := by
        apply assoc_ext rest rest'
        · exact (nodupKeysA_cons p rest hn).2
        · exact (nodupKeysA_cons p' rest' hn').2
        · exact hk2
        · intro k
          by_cases h : k = p.1
          · have h1 : lookupAssoc rest k = none :=
              lookupAssoc_eq_none_of_not_mem _ _
                (by rw [h]; exact (nodupKeysA_cons p rest hn).1)
            have h2 : lookupAssoc rest' k = none :=
              lookupAssoc_eq_none_of_not_mem _ _
                (by rw [h, hk1]; exact (nodupKeysA_cons p' rest' hn').1)
            rw [h1, h2]
          · have hlk := hl k
            have e1 : ¬p.1 = k := fun h' => h h'.symm
            have e2 : ¬p'.1 = k := fun h' => h (hk1 ▸ h'.symm)
            simpa [lookupAssoc, e1, e2] using hlk
      calc p :: rest = (p.1, p.2) :: rest := by rw [Prod.mk.eta]
        _ = (p'.1, p'.2) :: rest' := by rw [hk1, hv, hrest]
        _ = p' :: rest' := by rw [Prod.mk.eta]

/-! ## Lemmas about the processing loop -/

/-- The result row one file contributes, which does not depend on the loop
state (`src/app.py` lines 112-118 and 122-129). -/
def rowOf (proc : DocProcessor) (f : String) : ResultRow :=
  match proc f with
  | .ok (m, _, a) =>
      ⟨m.filename, m.document_type, m.confidence_score,
        a.overall_compliance_score, a.critical_issues_count, none⟩
  | .error e => ⟨basename f, "Error", 0, 0, 0, some e⟩

theorem foldl_processFile_results (proc : DocProcessor) (files : List String) :
    ∀ st : BatchState,
      (files.foldl (processFile proc) st).results = st.results ++ files.map (rowOf proc) := by
  induction files with
  | nil => intro st; simp
  | cons f fs ih =>
      intro st
      rw [List.foldl_cons, ih, List.map_cons]
      cases hp : proc f with
      | ok r =>
          obtain ⟨m, sec, a⟩ := r
          simp [processFile, hp, rowOf]
      | error e => simp [processFile, hp, rowOf]

theorem runBatch_results (proc : DocProcessor) (s : Session) (files : List String) :
    (runBatch proc s files).results = files.map (rowOf proc) := by
  simpa [runBatch] using foldl_processFile_results proc files _

/-- The compliance scores of the files a batch processes successfully,
in order. -/
def okScores (proc : DocProcessor) (files : List String) : List ℚ :=
  files.filterMap fun f =>
    match proc f with
    | .ok (_, _, a) => some a.overall_compliance_score
    | .error _ => none

theorem foldl_processFile_totals (proc : DocProcessor) (files : List String) :
    ∀ st : BatchState,
      (files.foldl (processFile proc) st).total_compliance_score
          = st.total_compliance_score + (okScores proc files).sum
        ∧ (files.foldl (processFile proc) st).processed_docs
          = st.processed_docs + (okScores proc files).length := by
  induction files with
  | nil => intro st; simp [okScores]
  | cons f fs ih =>
      intro st
      rw [List.foldl_cons]
      cases hp : proc f with
      | ok r =>
          obtain ⟨m, sec, a⟩ := r
          obtain ⟨ih1, ih2⟩ := ih (processFile proc st f)
          constructor
          · rw [ih1]; simp [processFile, hp, okScores]; ring
          · rw [ih2]; simp [processFile, hp, okScores]; omega
      | error e =>
          obtain ⟨ih1, ih2⟩ := ih (processFile proc st f)
          constructor
          · rw [ih1]; simp [processFile, hp, okScores]
          · rw [ih2]; simp [processFile, hp, okScores]

/-- Provenance of stored documents: every entry of the session's `documents`
dict after a batch is either a pre-existing entry or the record of a file the
processor accepted. -/
theorem foldl_processFile_documents_mem (proc : DocProcessor) (files : List String) :
    ∀ (st : BatchState) (kv : String × DocData),
      kv ∈ (files.foldl (processFile proc) st).session.documents →
      kv ∈ st.session.documents ∨
        ∃ f ∈ files, ∃ m sec a, proc f = .ok (m, sec, a) ∧ kv.2 = ⟨m, sec, a, f⟩ := by
  induction files with
  | nil => intro st kv h; exact Or.inl h
  | cons f fs ih =>
      intro st kv h
      rw [List.foldl_cons] at h
      rcases ih (processFile proc st f) kv h with h' | ⟨f', hf', hrest⟩
      · cases hp : proc f with
        | ok r =>
            obtain ⟨m, sec, a⟩ := r
            simp only [processFile, hp] at h'
            rcases mem_insertAssoc _ _ _ _ h' with h'' | h''
            · exact Or.inl h''
            · exact Or.inr ⟨f, List.mem_cons_self _ _, m, sec, a, hp, by rw [h'']⟩
        | error e =>
            simp only [processFile, hp] at h'
            exact Or.inl h'
      · exact Or.inr ⟨f', List.mem_cons_of_mem _ hf', hrest⟩

/-- Provenance of stored compliance reports, mirroring
`foldl_processFile_documents_mem`. -/
theorem foldl_processFile_reports_mem (proc : DocProcessor) (files : List String) :
    ∀ (st : BatchState) (kv : String × ComplianceEntry),
      kv ∈ (files.foldl (processFile proc) st).session.compliance_reports →
      kv ∈ st.session.compliance_reports ∨
        ∃ f ∈ files, ∃ m sec a, proc f = .ok (m, sec, a) ∧
          kv.2 = ⟨a.overall_compliance_score, a.critical_issues_count⟩ := by
  induction files with
  | nil => intro st kv h; exact Or.inl h
  | cons f fs ih =>
      intro st kv h
      rw [List.foldl_cons] at h
      rcases ih (processFile proc st f) kv h with h' | ⟨f', hf', hrest⟩
      · cases hp : proc f with
        | ok r =>
            obtain ⟨m, sec, a⟩ := r
            simp only [processFile, hp] at h'
            rcases mem_insertAssoc _ _ _ _ h' with h'' | h''
            · exact Or.inl h''
            · exact Or.inr ⟨f, List.mem_cons_self _ _, m, sec, a, hp, by rw [h'']⟩
        | error e =>
            simp only [processFile, hp] at h'
            exact Or.inl h'
      · exact Or.inr ⟨f', List.mem_cons_of_mem _ hf', hrest⟩

/-! ## Decomposing a batch into its dict writes -/

/-- The ordered sequence of `(doc_id, entry)` writes a batch performs on
`current_session['documents']`, starting from local counter `n`
(failed files write nothing and do not advance the counter). -/
def docWrites (proc : DocProcessor) : List String → ℕ → List (String × DocData)
  | [], _ => []
  | f :: fs, n =>
      match proc f with
      | .ok (m, sec, a) => (docKey (n + 1), ⟨m, sec, a, f⟩) :: docWrites proc fs (n + 1)
      | .error _ => docWrites proc fs n

/-- The matching write sequence on `current_session['compliance_reports']`. -/
def repWrites (proc : DocProcessor) : List String → ℕ → List (String × ComplianceEntry)
  | [], _ => []
  | f :: fs, n =>
      match proc f with
      | .ok (_, _, a) =>
          (docKey (n + 1), ⟨a.overall_compliance_score, a.critical_issues_count⟩) ::
            repWrites proc fs (n + 1)
      | .error _ => repWrites proc fs n

/-- Replay a write sequence on a dict. -/
def applyWrites {α : Type} (L : List (String × α)) (m : List (String × α)) :
    List (String × α) :=
  L.foldl (fun m p => insertAssoc m p.1 p.2) m

theorem applyWrites_nil {α : Type} (m : List (String × α)) : applyWrites [] m = m := rfl

theorem applyWrites_cons {α : Type} (p : String × α) (L : List (String × α))
    (m : List (String × α)) :
    applyWrites (p :: L) m = applyWrites L (insertAssoc m p.1 p.2) := rfl

/-- A batch's effect on the session is exactly the replay of its two write
sequences; `session_id` and `analysis_results` are untouched. -/
theorem foldl_processFile_session (proc : DocProcessor) (files : List String) :
    ∀ st : BatchState,
      (files.foldl (processFile proc) st).session =
        { st.session with
          documents :=
            applyWrites (docWrites proc files st.processed_docs) st.session.documents,
          compliance_reports :=
            applyWrites (repWrites proc files st.processed_docs)
              st.session.compliance_reports } := by
  induction files with
  | nil => intro st; simp [docWrites, repWrites, applyWrites]
  | cons f fs ih =>
      intro st
      rw [List.foldl_cons, ih]
      cases hp : proc f with
      | ok r =>
          obtain ⟨m, sec, a⟩ := r
          simp [processFile, hp, docWrites, repWrites, applyWrites_cons]
      | error e =>
          simp [processFile, hp, docWrites, repWrites]

theorem runBatch_session (proc : DocProcessor) (s : Session) (files : List String) :
    (runBatch proc s files).session =
      { s with
        documents := applyWrites (docWrites proc files 0) s.documents,
        compliance_reports := applyWrites (repWrites proc files 0) s.compliance_reports } :=
  foldl_processFile_session proc files _

/-- The value the last write in a sequence leaves at a key. -/
def lastWrite {α : Type} : List (String × α) → String → Option α
  | [], _ => none
  | p :: L, k =>
      match lastWrite L k with
      | some v => some v
      | none => if p.1 = k then some p.2 else none

theorem lookupAssoc_applyWrites {α : Type} (L : List (String × α)) :
    ∀ (m : List (String × α)) (k : String),
      lookupAssoc (applyWrites L m) k =
        match lastWrite L k with
        | some v => some v
        | none => lookupAssoc m k := by
  induction L with
  | nil => intro m k; simp [applyWrites, lastWrite]
  | cons p L ih =>
      intro m k
      rw [applyWrites_cons, ih]
      cases hL : lastWrite L k with
      | some v => simp [lastWrite, hL]
      | none =>
          by_cases hp : p.1 = k
          · subst hp
            simp [lastWrite, hL, lookupAssoc_insertAssoc_self]
          · have : k ≠ p.1 := fun h => hp h.symm
            simp [lastWrite, hL, hp, lookupAssoc_insertAssoc_ne m p.1 k p.2 this]

theorem mem_keysA_applyWrites_of_mem {α : Type} (L : List (String × α)) :
    ∀ (m : List (String × α)) (k : String), k ∈ keysA m → k ∈ keysA (applyWrites L m) := by
  induction L with
  | nil => intro m k h; exact h
  | cons p L ih =>
      intro m k h
      rw [applyWrites_cons]
      exact ih _ k (mem_keysA_insertAssoc_of_mem m p.1 k p.2 h)

theorem mem_keysA_applyWrites_of_write {α : Type} (L : List (String × α)) :
    ∀ (m : List (String × α)) (k : String), k ∈ L.map Prod.fst →
      k ∈ keysA (applyWrites L m) := by
  induction L with
  | nil => intro m k h; simp at h
  | cons p L ih =>
      intro m k h
      rw [List.map_cons, List.mem_cons] at h
      rw [applyWrites_cons]
      rcases h with h | h
      · exact mem_keysA_applyWrites_of_mem L _ k
          (h ▸ mem_keysA_insertAssoc_self m p.1 p.2)
      · exact ih _ k h

theorem keysA_applyWrites_of_subset {α : Type} (L : List (String × α)) :
    ∀ m : List (String × α), (∀ k ∈ L.map Prod.fst, k ∈ keysA m) →
      keysA (applyWrites L m) = keysA m := by
  induction L with
  | nil => intro m _; rfl
  | cons p L ih =>
      intro m h
      have hp : p.1 ∈ keysA m := h p.1 (by simp)
      rw [applyWrites_cons, ih _ ?_, keysA_insertAssoc_of_mem m p.1 p.2 hp]
      intro k hk
      rw [keysA_insertAssoc_of_mem m p.1 p.2 hp]
      exact h k (by simp [hk])

theorem nodupKeysA_applyWrites {α : Type} (L : List (String × α)) :
    ∀ m : List (String × α), NodupKeysA m → NodupKeysA (applyWrites L m) := by
  induction L with
  | nil => intro m h; exact h
  | cons p L ih =>
      intro m h
      rw [applyWrites_cons]
      exact ih _ (nodupKeysA_insertAssoc m p.1 p.2 h)

/-- Replaying the same write sequence a second time is a no-op on a
well-formed dict. -/
theorem applyWrites_idem {α : Type} (L : List (String × α)) (m : List (String × α))
    (h : NodupKeysA m) : applyWrites L (applyWrites L m) = applyWrites L m := by
  apply assoc_ext
  · exact nodupKeysA_applyWrites L _ (nodupKeysA_applyWrites L m h)
  · exact nodupKeysA_applyWrites L m h
  · apply keysA_applyWrites_of_subset
    intro k hk
    exact mem_keysA_applyWrites_of_write L m k hk
  · intro k
    rw [lookupAssoc_applyWrites, lookupAssoc_applyWrites]
    cases lastWrite L k with
    | some v => rfl
    | none => rfl

/-! ## Lemmas about the compliance scorer -/

theorem scoreStep_foldl (dt text : String) (rules : List Rule) :
    ∀ acc : ScoreTally,
      (rules.foldl (scoreStep dt text) acc).satisfied
          = acc.satisfied +
            (rules.filter fun r => decide (evalRule dt text r = .satisfied)).length
      ∧ (rules.foldl (scoreStep dt text) acc).violated
          = acc.violated +
            (rules.filter fun r => decide (evalRule dt text r = .violated)).length
      ∧ (rules.foldl (scoreStep dt text) acc).critical_issues_count
          = acc.critical_issues_count +
            (rules.filter fun r =>
              decide (evalRule dt text r = .violated) &&
                decide (r.severity = .critical)).length := by
  induction rules with
  | nil => intro acc; simp
  | cons r rs ih =>
      intro acc
      rw [List.foldl_cons]
      obtain ⟨ih1, ih2, ih3⟩ := ih (scoreStep dt text acc r)
      cases he : evalRule dt text r with
      | satisfied =>
          refine ⟨?_, ?_, ?_⟩
          · rw [ih1]; simp [scoreStep, he, List.filter_cons]; omega
          · rw [ih2]; simp [scoreStep, he, List.filter_cons]
          · rw [ih3]; simp [scoreStep, he, List.filter_cons]
      | violated =>
          by_cases hc : r.severity = .critical
          · refine ⟨?_, ?_, ?_⟩
            · rw [ih1]; simp [scoreStep, he, List.filter_cons]
            · rw [ih2]; simp [scoreStep, he, List.filter_cons]; omega
            · rw [ih3]; simp [scoreStep, he, hc, List.filter_cons]; omega
          · refine ⟨?_, ?_, ?_⟩
            · rw [ih1]; simp [scoreStep, he, List.filter_cons]
            · rw [ih2]; simp [scoreStep, he, List.filter_cons]; omega
            · rw [ih3]; simp [scoreStep, he, hc, List.filter_cons]
      | notApplicable =>
          refine ⟨?_, ?_, ?_⟩
          · rw [ih1]; simp [scoreStep, he, List.filter_cons]
          · rw [ih2]; simp [scoreStep, he, List.filter_cons]
          · rw [ih3]; simp [scoreStep, he, List.filter_cons]

theorem checkCompliance_satisfied (dt text : String) (rules : List Rule) :
    (checkCompliance dt text rules).satisfied
      = (rules.filter fun r => decide (evalRule dt text r = .satisfied)).length := by
  have h := (scoreStep_foldl dt text rules ⟨0, 0, 0, []⟩).1
  simpa [checkCompliance] using h

theorem checkCompliance_violated (dt text : String) (rules : List Rule) :
    (checkCompliance dt text rules).violated
      = (rules.filter fun r => decide (evalRule dt text r = .violated)).length := by
  have h := (scoreStep_foldl dt text rules ⟨0, 0, 0, []⟩).2.1
  simpa [checkCompliance] using h

theorem checkCompliance_critical (dt text : String) (rules : List Rule) :
    (checkCompliance dt text rules).critical_issues_count
      = (rules.filter fun r =>
          decide (evalRule dt text r = .violated) && decide (r.severity = .critical)).length := by
  have h := (scoreStep_foldl dt text rules ⟨0, 0, 0, []⟩).2.2
  simpa [checkCompliance] using h

/-! ## Claim theorems -/

/-- Claim **C10**: calling `process_uploaded_documents` with an empty (falsy) file
list returns exactly the triple `("No files uploaded", "", "")` and leaves
every field of the session state (`documents`, `analysis_results`,
`compliance_reports`, `session_id`) unchanged. -/
theorem claim10_empty_files_noop (proc : DocProcessor) (s : Session)
    (files : List String) (h : files = []) :
    processUploadedDocuments proc s files = (.message "No files uploaded" "" "", s) := by
  subst h
  rfl

/-- Witness for C10 at a concrete processor and session. -/
theorem claim10_witness :
    processUploadedDocuments (fun _ => .error "unreadable") (Session.init "session_1") [] =
      (.message "No files uploaded" "" "", Session.init "session_1") :=
  claim10_empty_files_noop (fun _ => .error "unreadable") (Session.init "session_1") [] rfl

/-- Claim **C9**: for every `(document_type, classified section list)` input, the
red-flag detection returns its findings ordered by descending severity and,
within equal severity, by ascending section position (the order `flagLE`);
the output is a permutation of the raw category findings (nothing invented
or dropped by ordering); and repeated calls on the same input return the
findings in the identical order. -/
theorem claim9_redflag_order (document_type : String) (sections : List DocSection) :
    (detectRedFlags document_type sections).Sorted flagLE
    ∧ (detectRedFlags document_type sections).Perm (rawFlags document_type sections)
    ∧ detectRedFlags document_type sections = detectRedFlags document_type sections :=
  ⟨List.sorted_insertionSort flagLE _, List.perm_insertionSort flagLE _, rfl⟩

/-- Claim **C8**: for every analyzed document, the reported `critical_issues_count`
equals exactly the number of Critical-severity violated rules, with no double
counting across duplicate rule matches (each catalog entry contributes
exactly once). -/
theorem claim8_critical_count (dt text : String) (rules : List Rule) :
    (checkCompliance dt text rules).critical_issues_count
      = (rules.filter fun r =>
          decide (evalRule dt text r = .violated) && decide (r.severity = .critical)).length :=
  checkCompliance_critical dt text rules

/-- Claim **C6**: for every document whose detected type has no applicable rules,
the overall compliance score is `1.0`: the division-by-zero case of
Satisfied / (Satisfied + Violated) is defined as fully compliant. -/
theorem claim6_no_applicable_rules (dt text : String) (rules : List Rule)
    (h : ∀ r ∈ rules, dt ∉ r.doc_types) :
    overallScore (checkCompliance dt text rules) = 1 := by
  have hsat : (checkCompliance dt text rules).satisfied = 0 := by
    rw [checkCompliance_satisfied]
    rw [List.length_eq_zero, List.filter_eq_nil_iff]
    intro r hr
    simp [evalRule, h r hr]
  have hvio : (checkCompliance dt text rules).violated = 0 := by
    rw [checkCompliance_violated]
    rw [List.length_eq_zero, List.filter_eq_nil_iff]
    intro r hr
    simp [evalRule, h r hr]
  unfold overallScore
  rw [hsat, hvio]
  norm_num

/-- Witness for C6: a Board Resolution against a catalog whose only rules
target other document types. -/
theorem claim6_witness :
    overallScore (checkCompliance "Board Resolution" "some document text"
      [⟨"r1", ["Articles of Association"], "ADGM Courts", .critical, "fix"⟩,
       ⟨"r2", ["UBO Declaration Form"], "nationality", .high, "fix"⟩]) = 1 :=
  claim6_no_applicable_rules "Board Resolution" "some document text"
    [⟨"r1", ["Articles of Association"], "ADGM Courts", .critical, "fix"⟩,
     ⟨"r2", ["UBO Declaration Form"], "nationality", .high, "fix"⟩]
    (by intro r hr; fin_cases hr <;> decide)

/-- Claim **C2**: whenever the retrieved context for a question is empty, the
question-answering operation returns the fixed "no information found"
message — independently of the generator collaborator, so no generator
failure can reach the caller — and the spec-modelled answer assembler
returns confidence `0.0`, no references and no sources on empty context. -/
theorem claim2_empty_context (retrieve : String → ℕ → List ContextChunk)
    (generate generate' : String → List ContextChunk → Except String RAGResponse)
    (render : String → RAGResponse → String) (question : String)
    (hq : isBlank question = false) (hctx : retrieve question 5 = []) :
    askAdgmQuestion retrieve generate render question =
      "I couldn't find relevant information in the ADGM knowledge base. Please try rephrasing your question."
    ∧ askAdgmQuestion retrieve generate render question =
        askAdgmQuestion retrieve generate' render question
    ∧ (assembleAnswer question []).confidence_score = 0
    ∧ (assembleAnswer question []).adgm_references = []
    ∧ (assembleAnswer question []).sources = [] := by
  have h1 : askAdgmQuestion retrieve generate render question =
      "I couldn't find relevant information in the ADGM knowledge base. Please try rephrasing your question." := by
    unfold askAdgmQuestion
    rw [hq, hctx]
    rfl
  have h2 : askAdgmQuestion retrieve generate' render question =
      "I couldn't find relevant information in the ADGM knowledge base. Please try rephrasing your question." := by
    unfold askAdgmQuestion
    rw [hq, hctx]
    rfl
  exact ⟨h1, h1.trans h2.symm, rfl, rfl, rfl⟩

/-- Witness for C2: a concrete question, an empty knowledge base, and a
generator that would raise if it were ever called. -/
theorem claim2_witness :
    askAdgmQuestion (fun _ _ => []) (fun _ _ => .error "CompletionError")
      (fun _ r => r.answer) "What are the ADGM incorporation requirements?" =
      "I couldn't find relevant information in the ADGM knowledge base. Please try rephrasing your question."
    ∧ (assembleAnswer "What are the ADGM incorporation requirements?" []).confidence_score = 0 :=
  ⟨(claim2_empty_context (fun _ _ => []) (fun _ _ => .error "CompletionError")
      (fun _ _ => .error "CompletionError") (fun _ r => r.answer)
      "What are the ADGM incorporation requirements?" (by decide) rfl).1,
   (claim2_empty_context (fun _ _ => []) (fun _ _ => .error "CompletionError")
      (fun _ _ => .error "CompletionError") (fun _ r => r.answer)
      "What are the ADGM incorporation requirements?" (by decide) rfl).2.2.1⟩

/-- Claim **C1**: a required document type is listed as missing by
`_generate_recommendations` if and only if it is one of the three required
types and no stored (i.e. successfully processed — see C3) document in the
session has that type, regardless of how many documents of other types were
uploaded; and for a session whose documents are all of type
"Board Resolution", the missing list is exactly the three required types. -/
theorem claim1_missing_checklist (s : Session) (d : String) :
    (d ∈ missingDocs s ↔
      d ∈ required_docs ∧ ∀ kv ∈ s.documents, kv.2.metadata.document_type ≠ d)
    ∧ ((∀ kv ∈ s.documents, kv.2.metadata.document_type = "Board Resolution") →
        missingDocs s = required_docs) := by
  constructor
  · unfold missingDocs docTypes
    rw [List.mem_filter]
    simp only [decide_eq_true_eq, List.mem_map, not_exists, not_and, ne_eq]
  · intro hall
    apply List.filter_eq_self.mpr
    intro d' hd'
    simp only [decide_eq_true_eq]
    intro hmem
    unfold docTypes at hmem
    rw [List.mem_map] at hmem
    obtain ⟨kv, hkv, htype⟩ := hmem
    have hbr := hall kv hkv
    rw [hbr] at htype
    subst htype
    simp only [required_docs, List.mem_cons, List.mem_singleton] at hd'
    rcases hd' with h | h | h <;> exact absurd h (by decide)

/-- Witness for C1: a session holding exactly one Board Resolution document
reports all three required types as missing. -/
theorem claim1_witness :
    missingDocs
      { documents :=
          [("doc_1", ⟨⟨"br.docx", "Board Resolution", 1, 120⟩, [], ⟨1, 0⟩, "br.docx"⟩)],
        analysis_results := [],
        compliance_reports := [("doc_1", ⟨1, 0⟩)],
        session_id := "session_w" } = required_docs :=
  (claim1_missing_checklist
      { documents :=
          [("doc_1", ⟨⟨"br.docx", "Board Resolution", 1, 120⟩, [], ⟨1, 0⟩, "br.docx"⟩)],
        analysis_results := [],
        compliance_reports := [("doc_1", ⟨1, 0⟩)],
        session_id := "session_w" } "Articles of Association").2
    (by
      intro kv hkv
      simp only [List.mem_singleton] at hkv
      rw [hkv])

/-- Claim **C3**: one bad document does not abort the batch — every uploaded file
contributes exactly one result row in order; a file the processor rejects
appears in the results with a zero compliance score and an explicit error
annotation; and nothing is added to the session's stored `documents` or
`compliance_reports` for it: every stored entry is either pre-existing or
the record of a successfully processed file. -/
theorem claim3_error_isolation (proc : DocProcessor) (s : Session) (files : List String) :
    (runBatch proc s files).results = files.map (rowOf proc)
    ∧ (∀ f ∈ files, ∀ e, proc f = .error e →
        (⟨basename f, "Error", 0, 0, 0, some e⟩ : ResultRow) ∈ (runBatch proc s files).results)
    ∧ (∀ kv ∈ (runBatch proc s files).session.documents,
        kv ∈ s.documents ∨
          ∃ f ∈ files, ∃ m sec a, proc f = .ok (m, sec, a) ∧ kv.2 = ⟨m, sec, a, f⟩)
    ∧ (∀ kv ∈ (runBatch proc s files).session.compliance_reports,
        kv ∈ s.compliance_reports ∨
          ∃ f ∈ files, ∃ m sec a, proc f = .ok (m, sec, a) ∧
            kv.2 = ⟨a.overall_compliance_score, a.critical_issues_count⟩) := by
  refine ⟨runBatch_results proc s files, ?_, ?_, ?_⟩
  · intro f hf e he
    rw [runBatch_results proc s files]
    have : rowOf proc f = ⟨basename f, "Error", 0, 0, 0, some e⟩ := by
      unfold rowOf
      rw [he]
    exact this ▸ List.mem_map_of_mem (rowOf proc) hf
  · intro kv hkv
    exact foldl_processFile_documents_mem proc files _ kv hkv
  · intro kv hkv
    exact foldl_processFile_reports_mem proc files _ kv hkv

/-- Witness for C3: a two-file batch whose second file is unreadable — the
error row is present in the results. -/
theorem claim3_witness :
    (⟨basename "bad.docx", "Error", 0, 0, 0, some "corrupt file"⟩ : ResultRow) ∈
      (runBatch
        (fun f => if f = "bad.docx" then .error "corrupt file"
          else .ok (⟨f, "Board Resolution", 1, 50⟩, [], ⟨1, 0⟩))
        (Session.init "session_w3") ["good.docx", "bad.docx"]).results :=
  (claim3_error_isolation
      (fun f => if f = "bad.docx" then .error "corrupt file"
        else .ok (⟨f, "Board Resolution", 1, 50⟩, [], ⟨1, 0⟩))
      (Session.init "session_w3") ["good.docx", "bad.docx"]).2.1
    "bad.docx" (by decide) "corrupt file" (by rfl)

/-- The constructor `__init__` never assigns `analytics_engine` or `export_manager`, and
`process_uploaded_documents` only mutates `current_session`, so those two
attributes stay absent through any sequence of processing calls. -/
theorem foldl_processBatch_attrs (batches : List (List String)) :
    ∀ a : ADGMCorporateAgent,
      (batches.foldl (fun a fs => (a.processBatch fs).2) a).analytics_engine
          = a.analytics_engine
        ∧ (batches.foldl (fun a fs => (a.processBatch fs).2) a).export_manager
          = a.export_manager := by
  induction batches with
  | nil => intro a; exact ⟨rfl, rfl⟩
  | cons b bs ih =>
      intro a
      rw [List.foldl_cons]
      obtain ⟨ih1, ih2⟩ := ih ((a.processBatch b).2)
      exact ⟨ih1.trans rfl, ih2.trans rfl⟩

/-- Claim **C4**: after `__init__` and any sequence of document-processing calls,
a session with at least one processed document makes
`generate_analytics_dashboard` and `export_results` always return their
`AttributeError`-derived error tuples — never a dashboard or an export file
path — because `__init__` assigns only `document_processor` and `rag_system`,
so `self.analytics_engine` and `self.export_manager` do not exist. -/
theorem claim4_analytics_export_error (proc : DocProcessor) (sid : String)
    (batches : List (List String)) (fmt : String)
    (h : (ADGMCorporateAgent.afterBatches proc sid batches).current_session.documents ≠ []) :
    (ADGMCorporateAgent.afterBatches proc sid batches).generateAnalyticsDashboard =
      ("Error generating analytics: " ++ attributeError "analytics_engine", "")
    ∧ (ADGMCorporateAgent.afterBatches proc sid batches).exportResults fmt =
      ("", "Export failed: " ++ attributeError "export_manager") := by
  have hattrs :
      (ADGMCorporateAgent.afterBatches proc sid batches).analytics_engine = none
      ∧ (ADGMCorporateAgent.afterBatches proc sid batches).export_manager = none := by
    have h' := foldl_processBatch_attrs batches (ADGMCorporateAgent.init proc sid)
    simpa [ADGMCorporateAgent.afterBatches, ADGMCorporateAgent.init] using h'
  have hempty :
      (ADGMCorporateAgent.afterBatches proc sid batches).current_session.documents.isEmpty
        = false := by
    simpa [List.isEmpty_iff] using h
  constructor
  · unfold ADGMCorporateAgent.generateAnalyticsDashboard
    rw [hempty, hattrs.1]
    rfl
  · unfold ADGMCorporateAgent.exportResults
    rw [hempty, hattrs.2]
    rfl

/-- Witness for C4: one successful batch, then both methods fail. -/
theorem claim4_witness :
    (ADGMCorporateAgent.afterBatches
        (fun f => .ok (⟨f, "Board Resolution", 1, 10⟩, [], ⟨1, 0⟩))
        "session_w4" [["a.docx"]]).generateAnalyticsDashboard =
      ("Error generating analytics: " ++ attributeError "analytics_engine", "")
    ∧ (ADGMCorporateAgent.afterBatches
        (fun f => .ok (⟨f, "Board Resolution", 1, 10⟩, [], ⟨1, 0⟩))
        "session_w4" [["a.docx"]]).exportResults "zip" =
      ("", "Export failed: " ++ attributeError "export_manager") :=
  claim4_analytics_export_error
    (fun f => .ok (⟨f, "Board Resolution", 1, 10⟩, [], ⟨1, 0⟩))
    "session_w4" [["a.docx"]] "zip" (by decide)

/-- A processor under which `first.docx` scores `1.0` and every other file
scores `0.0` (used to exhibit the multi-batch behaviour of the averages). -/
def proc5 : DocProcessor := fun f =>
  if f = "first.docx" then .ok (⟨"first.docx", "Board Resolution", 1, 10⟩, [], ⟨1, 0⟩)
  else .ok (⟨"second.docx", "Board Resolution", 1, 10⟩, [], ⟨0, 0⟩)

/-- The state after the first batch (one document, score `1.0`). -/
def c5_batch1 : BatchState := runBatch proc5 (Session.init "session_c5") ["first.docx"]

/-- The state after a second batch in the same session (one document,
score `0.0`): its `doc_1` key overwrites the first batch's stored entry. -/
def c5_batch2 : BatchState := runBatch proc5 c5_batch1.session ["second.docx"]

/-- Claim **C5 counterexample**: in one session, a first batch processes a document
with score `1.0` and a second batch processes a document with score `0.0`,
so the arithmetic mean over all documents processed so far is `1/2`; but the
summary reported after the second batch shows average `0`, and the
recommendations average — recomputed from the stored reports, where the
second batch's `doc_1` overwrote the first batch's entry — is also `0`.
The reported session-wide average is therefore not the mean over all
documents processed so far. -/
theorem claim5_counterexample :
    okScores proc5 ["first.docx"] ++ okScores proc5 ["second.docx"] = [1, 0]
    ∧ (summaryData c5_batch2).avg_compliance = 0
    ∧ generateRecommendations c5_batch2.session = .ok (.recs ⟨0, 0, required_docs⟩)
    ∧ ((1 : ℚ) + 0) / 2 ≠ 0 := by
  refine ⟨by decide, ?_, ?_, by norm_num⟩
  · simp +decide only [summaryData, c5_batch2, c5_batch1, runBatch, processFile, proc5,
      Session.init, insertAssoc, docKey, List.foldl]
    norm_num
  · simp +decide only [generateRecommendations, collectReports, c5_batch2, c5_batch1,
      runBatch, processFile, proc5, Session.init, insertAssoc, lookupAssoc, docKey,
      missingDocs, docTypes, required_docs, List.filter, List.foldl, Except.map,
      List.map, List.sum]
    norm_num

/-- Claim **C5 amended**: the average compliance score reported in the processing
summary of a batch equals the arithmetic mean of the compliance scores of
the documents successfully processed in that batch (it is computed from that
batch's running totals, not from the stored session-wide reports). -/
theorem claim5_batch_mean (proc : DocProcessor) (s : Session) (files : List String)
    (h : okScores proc files ≠ []) :
    (summaryData (runBatch proc s files)).avg_compliance =
      (okScores proc files).sum / (okScores proc files).length := by
  have h1 := (foldl_processFile_totals proc files ⟨s, [], 0, 0, 0⟩).1
  have h2 := (foldl_processFile_totals proc files ⟨s, [], 0, 0, 0⟩).2
  have hlen : 0 < (okScores proc files).length := List.length_pos.mpr h
  simp only [summaryData, runBatch]
  rw [h1, h2]
  simp [hlen]

/-- Witness for the amended C5 at a concrete one-file batch. -/
theorem claim5_witness :
    (summaryData (runBatch proc5 (Session.init "session_w5") ["first.docx"])).avg_compliance
      = (okScores proc5 ["first.docx"]).sum / (okScores proc5 ["first.docx"]).length :=
  claim5_batch_mean proc5 (Session.init "session_w5") ["first.docx"] (by decide)

/-- Claim **C7**: rollup is idempotent under recomputation.  Re-processing the
identical file batch leaves the session state — and therefore the session
statistics (average score, total issues, missing-document checklist)
computed by `_generate_recommendations` — unchanged, and running the
statistics computation twice over the same stored document set yields
identical results (it is a pure recomputation). -/
theorem claim7_rollup_idempotent (proc : DocProcessor) (s : Session) (files : List String)
    (h1 : NodupKeysA s.documents) (h2 : NodupKeysA s.compliance_reports) :
    (runBatch proc (runBatch proc s files).session files).session =
      (runBatch proc s files).session
    ∧ generateRecommendations (runBatch proc (runBatch proc s files).session files).session =
        generateRecommendations (runBatch proc s files).session
    ∧ generateRecommendations (runBatch proc s files).session =
        generateRecommendations (runBatch proc s files).session := by
  have hmain : (runBatch proc (runBatch proc s files).session files).session =
      (runBatch proc s files).session := by
    rw [runBatch_session proc s files, runBatch_session proc _ files]
    congr 1
    · exact applyWrites_idem _ _ h1
    · exact applyWrites_idem _ _ h2
  exact ⟨hmain, by rw [hmain], rfl⟩

/-- Witness for C7: re-processing a concrete one-file batch in a fresh
session leaves the session unchanged. -/
theorem claim7_witness :
    (runBatch proc5 (runBatch proc5 (Session.init "session_w7") ["first.docx"]).session
        ["first.docx"]).session =
      (runBatch proc5 (Session.init "session_w7") ["first.docx"]).session :=
  (claim7_rollup_idempotent proc5 (Session.init "session_w7") ["first.docx"]
    List.nodup_nil List.nodup_nil).1

end ADGM
